import Mathlib

/-!
Verification of the DCA grid calculator and strategy store of `src/dca.py`.

Numbers are modelled as exact rationals (`ℚ`); Python's binary floats are
idealised as exact real arithmetic, as the specification does.  Python's
`round(x, 2)` (round half to even, two decimal places) is modelled by
`round2`.  The grid-generation loop of `DCABot.calculate_strategy` is
embedded as a fuel-indexed recursion `soLoop` over an explicit loop state,
and `DCABot.delete_strategy` operates on the JSON object (a finite map from
names to saved strategies) represented as an association list.
-/

/-- Round half to even on `ℤ`-valued positions: the integer nearest to `q`,
ties going to the even integer.  Models Python's `round`. -/
def rne (q : ℚ) : ℤ :=
  let n : ℤ := ⌊q⌋
  let f : ℚ := q - (n : ℚ)
  if f < 1/2 then n else if 1/2 < f then n + 1 else if n % 2 = 0 then n else n + 1

/-- Python's `round(q, 2)`: round to two decimal places, half to even. -/
def round2 (q : ℚ) : ℚ := ((rne (100 * q) : ℤ) : ℚ) / 100

/-- One row of the grid returned by `DCABot.calculate_strategy`
(the dict appended at src/dca.py lines 27-35 and 46-54). -/
structure StageRecord where
  step : String
  buyPrice : ℚ
  orderSize : ℚ
  totalInvestment : ℚ
  avgPrice : ℚ
  tpTarget : ℚ
  dropPct : ℚ
  deriving DecidableEq

/-- The mutable locals of `calculate_strategy`
(src/dca.py lines 20-24, updated at lines 42-43 and 56-58). -/
structure LoopState where
  cumulative_spent : ℚ
  cumulative_volume : ℚ
  last_price : ℚ
  last_order_size : ℚ
  current_deviation : ℚ
  deriving DecidableEq

/-- Initialisation of the loop state (src/dca.py lines 20-24). -/
def initState (base_price base_order price_step : ℚ) : LoopState :=
  { cumulative_spent := base_order
    cumulative_volume := base_order / base_price
    last_price := base_price
    last_order_size := base_order
    current_deviation := price_step }

/-- One iteration of the safety-order loop acting on the state
(src/dca.py lines 39-44 and 56-58): compute the buy price and order size,
accumulate spent and volume, then shift `last_price`, `last_order_size`
and scale the deviation. -/
def stepState (volume_scale step_scale : ℚ) (s : LoopState) : LoopState :=
  let buy_price := s.last_price * (1 - s.current_deviation / 100)
  let order_size := s.last_order_size * volume_scale
  { cumulative_spent := s.cumulative_spent + order_size
    cumulative_volume := s.cumulative_volume + order_size / buy_price
    last_price := buy_price
    last_order_size := order_size
    current_deviation := s.current_deviation * step_scale }

/-- The record appended at iteration `i` (src/dca.py lines 46-54), read off
the state after the update: the iteration's `buy_price` is `last_price`,
its `order_size` is `last_order_size`, and `avg_price` is
`cumulative_spent / cumulative_volume`. -/
def soRecord (base_price tp_pct : ℚ) (i : ℕ) (s : LoopState) : StageRecord :=
  let avg_price := s.cumulative_spent / s.cumulative_volume
  { step := ("SO #") ++ toString i
    buyPrice := round2 s.last_price
    orderSize := round2 s.last_order_size
    totalInvestment := round2 s.cumulative_spent
    avgPrice := round2 avg_price
    tpTarget := round2 (avg_price * (1 + tp_pct / 100))
    dropPct := round2 ((base_price - s.last_price) / base_price * 100) }

/-- The base record appended at src/dca.py lines 27-35. -/
def baseRecord (base_price base_order tp_pct : ℚ) : StageRecord :=
  { step := ("Base")
    buyPrice := round2 base_price
    orderSize := round2 base_order
    totalInvestment := round2 base_order
    avgPrice := round2 base_price
    tpTarget := round2 (base_price * (1 + tp_pct / 100))
    dropPct := 0 }

/-- The `for i in range(1, safety_orders + 1)` loop of src/dca.py lines
38-58, with `n` the number of remaining iterations and `i` the current
loop index. -/
def soLoop (base_price volume_scale step_scale tp_pct : ℚ) :
    ℕ → ℕ → LoopState → List StageRecord
  | 0, _, _ => []
  | n + 1, i, s =>
    let s' := stepState volume_scale step_scale s
    soRecord base_price tp_pct i s' ::
      soLoop base_price volume_scale step_scale tp_pct n (i + 1) s'

/-- `DCABot.calculate_strategy` (src/dca.py lines 17-60). -/
def calculate_strategy (base_price base_order : ℚ) (safety_orders : ℕ)
    (price_step volume_scale step_scale tp_pct : ℚ) : List StageRecord :=
  baseRecord base_price base_order tp_pct ::
    soLoop base_price volume_scale step_scale tp_pct safety_orders 1
      (initState base_price base_order price_step)

/-- Iterate `stepState` a given number of times. -/
def stepN (volume_scale step_scale : ℚ) : ℕ → LoopState → LoopState
  | 0, s => s
  | n + 1, s => stepState volume_scale step_scale (stepN volume_scale step_scale n s)

/-- The loop state after `n` iterations of the safety-order loop. -/
def stateAt (base_price base_order price_step volume_scale step_scale : ℚ) :
    ℕ → LoopState
  | 0 => initState base_price base_order price_step
  | n + 1 => stepState volume_scale step_scale
      (stateAt base_price base_order price_step volume_scale step_scale n)

/-- The unrounded buy price of stage `n` (`base_price` at stage 0, the
iteration's `buy_price` afterwards). -/
def buyPriceAt (base_price base_order price_step volume_scale step_scale : ℚ)
    (n : ℕ) : ℚ :=
  (stateAt base_price base_order price_step volume_scale step_scale n).last_price

/-- The unrounded order size of stage `n`. -/
def orderSizeAt (base_price base_order price_step volume_scale step_scale : ℚ)
    (n : ℕ) : ℚ :=
  (stateAt base_price base_order price_step volume_scale step_scale n).last_order_size

/-- The unrounded `cumulative_spent` after stage `n`. -/
def spentAt (base_price base_order price_step volume_scale step_scale : ℚ)
    (n : ℕ) : ℚ :=
  (stateAt base_price base_order price_step volume_scale step_scale n).cumulative_spent

/-- The unrounded `cumulative_volume` after stage `n`. -/
def volumeAt (base_price base_order price_step volume_scale step_scale : ℚ)
    (n : ℕ) : ℚ :=
  (stateAt base_price base_order price_step volume_scale step_scale n).cumulative_volume

/-- The unrounded `current_deviation` after stage `n`. -/
def deviationAt (base_price base_order price_step volume_scale step_scale : ℚ)
    (n : ℕ) : ℚ :=
  (stateAt base_price base_order price_step volume_scale step_scale n).current_deviation

/-- The unrounded volume-weighted average price after stage `n`
(`cumulative_spent / cumulative_volume`). -/
def avgPriceAt (base_price base_order price_step volume_scale step_scale : ℚ)
    (n : ℕ) : ℚ :=
  spentAt base_price base_order price_step volume_scale step_scale n /
    volumeAt base_price base_order price_step volume_scale step_scale n

/-- One iteration of the safety-order loop with Python's division-by-zero
behaviour made explicit: dividing by an exact zero raises `ZeroDivisionError`
(src/dca.py line 43 divides by `buy_price`, line 44 by `cumulative_volume`). -/
def soLoopE (base_price volume_scale step_scale tp_pct : ℚ) :
    ℕ → ℕ → LoopState → Except String (List StageRecord)
  | 0, _, _ => Except.ok []
  | n + 1, i, s =>
    let buy_price := s.last_price * (1 - s.current_deviation / 100)
    if buy_price = 0 then Except.error ("ZeroDivisionError")
    else
      let s' := stepState volume_scale step_scale s
      if s'.cumulative_volume = 0 then Except.error ("ZeroDivisionError")
      else
        match soLoopE base_price volume_scale step_scale tp_pct n (i + 1) s' with
        | Except.ok rest => Except.ok (soRecord base_price tp_pct i s' :: rest)
        | Except.error e => Except.error e

/-- `DCABot.calculate_strategy` with Python's `ZeroDivisionError` made
explicit: src/dca.py line 21 divides by `base_price`, and each loop
iteration divides by `buy_price` (line 43) and by `cumulative_volume`
(line 44).  On inputs where no division by an exact zero occurs it returns
`Except.ok` of the grid. -/
def calcE (base_price base_order : ℚ) (safety_orders : ℕ)
    (price_step volume_scale step_scale tp_pct : ℚ) :
    Except String (List StageRecord) :=
  if base_price = 0 then Except.error ("ZeroDivisionError")
  else
    match soLoopE base_price volume_scale step_scale tp_pct safety_orders 1
        (initState base_price base_order price_step) with
    | Except.ok rest => Except.ok (baseRecord base_price base_order tp_pct :: rest)
    | Except.error e => Except.error e

/-- The seven input parameters of a strategy (spec §3, src/dca.py line 17). -/
structure StrategyParams where
  base_price : ℚ
  base_order : ℚ
  safety_orders : ℕ
  price_step : ℚ
  volume_scale : ℚ
  step_scale : ℚ
  tp_pct : ℚ
  deriving DecidableEq

/-- A saved entry of the strategy store (src/dca.py lines 66-70). -/
structure SavedStrategy where
  timestamp : String
  parameters : StrategyParams
  grid : List StageRecord
  deriving DecidableEq

/-- The JSON object persisted in `dca_strategies.json`: a finite map from
names to saved strategies (a Python dict), represented as an association
list in which each name occurs as a key at most once. -/
abbrev Store := List (String × SavedStrategy)

/-- `DCABot.delete_strategy` (src/dca.py lines 75-83) acting on the stored
object: if the name is bound, remove its binding and report `true`,
otherwise leave the store unchanged and report `false`. -/
def delete_strategy (data : Store) (name : String) : Store × Bool :=
  if (data.lookup name).isSome then
    (data.filter (fun p => p.1 != name), true)
  else (data, false)

/-- A concrete parameter set (the defaults of src/dca.py lines 103-106). -/
def defaultParams : StrategyParams :=
  { base_price := 50000, base_order := 100, safety_orders := 5,
    price_step := 2, volume_scale := 3/2, step_scale := 11/10, tp_pct := 3/2 }

/-- A concrete two-entry store used to instantiate the store theorem. -/
def sampleStore : Store :=
  [(("alpha"), { timestamp := ("2024-01-01 00:00:00"), parameters := defaultParams,
                 grid := [] }),
   (("beta"), { timestamp := ("2024-01-02 00:00:00"), parameters := defaultParams,
                grid := [] })]

/-! ### Rounding characterisation -/

lemma rne_eq_low (q : ℚ) (n : ℤ) (h1 : (n : ℚ) ≤ q) (h2 : q - (n : ℚ) < 1/2) :
    rne q = n := by
  have hf : ⌊q⌋ = n := by
    rw [Int.floor_eq_iff]
    exact ⟨h1, by linarith⟩
  simp only [rne, hf]
  rw [if_pos h2]

lemma rne_eq_high (q : ℚ) (n : ℤ) (h1 : (n : ℚ) ≤ q) (h2 : q < (n : ℚ) + 1)
    (h3 : 1/2 < q - (n : ℚ)) : rne q = n + 1 := by
  have hf : ⌊q⌋ = n := by
    rw [Int.floor_eq_iff]
    exact ⟨h1, by linarith⟩
  simp only [rne, hf]
  rw [if_neg (by linarith), if_pos h3]

lemma round2_eq_low (q r : ℚ) (n : ℤ) (h1 : (n : ℚ) ≤ 100 * q)
    (h2 : 100 * q - (n : ℚ) < 1/2) (h3 : (n : ℚ) / 100 = r) : round2 q = r := by
  rw [round2, rne_eq_low (100 * q) n h1 h2, h3]

lemma round2_eq_high (q r : ℚ) (n : ℤ) (h1 : (n : ℚ) ≤ 100 * q) (h2 : 100 * q < (n : ℚ) + 1)
    (h3 : 1/2 < 100 * q - (n : ℚ)) (h4 : ((n : ℚ) + 1) / 100 = r) : round2 q = r := by
  rw [round2, rne_eq_high (100 * q) n h1 h2 h3]
  push_cast
  rw [h4]

/-! ### Structural lemmas on the loop -/

section

variable (bp bo ps vs ss tp : ℚ)

lemma soLoop_length (n : ℕ) : ∀ (i : ℕ) (s : LoopState),
    (soLoop bp vs ss tp n i s).length = n := by
  induction n with
  | zero => intro i s; rfl
  | succ n ih => intro i s; simp only [soLoop, List.length_cons, ih]

lemma calculate_strategy_length (so : ℕ) :
    (calculate_strategy bp bo so ps vs ss tp).length = so + 1 := by
  simp only [calculate_strategy, List.length_cons, soLoop_length]

lemma stepN_apply_stepState (n : ℕ) : ∀ s : LoopState,
    stepN vs ss n (stepState vs ss s) = stepN vs ss (n + 1) s := by
  induction n with
  | zero => intro s; rfl
  | succ n ih => intro s; simp only [stepN, ih]

lemma soLoop_get? (n : ℕ) : ∀ (k i : ℕ) (s : LoopState), k < n →
    (soLoop bp vs ss tp n i s).get? k =
      some (soRecord bp tp (i + k) (stepN vs ss (k + 1) s)) := by
  induction n with
  | zero => intro k i s h; exact absurd h (Nat.not_lt_zero k)
  | succ n ih =>
    intro k i s h
    cases k with
    | zero =>
      simp only [soLoop, List.get?_cons_zero, Nat.add_zero, stepN]
    | succ k =>
      have h' : k < n := Nat.lt_of_succ_lt_succ h
      simp only [soLoop, List.get?_cons_succ]
      rw [ih k (i + 1) (stepState vs ss s) h', stepN_apply_stepState]
      have hik : i + 1 + k = i + (k + 1) := by omega
      rw [hik]

lemma stateAt_eq_stepN (n : ℕ) :
    stateAt bp bo ps vs ss n = stepN vs ss n (initState bp bo ps) := by
  induction n with
  | zero => rfl
  | succ n ih => simp only [stateAt, stepN, ih]

lemma calculate_strategy_get?_zero (so : ℕ) :
    (calculate_strategy bp bo so ps vs ss tp).get? 0 =
      some (baseRecord bp bo tp) := rfl

lemma calculate_strategy_get?_succ (so k : ℕ) (h : k < so) :
    (calculate_strategy bp bo so ps vs ss tp).get? (k + 1) =
      some (soRecord bp tp (k + 1) (stateAt bp bo ps vs ss (k + 1))) := by
  simp only [calculate_strategy, List.get?_cons_succ]
  rw [soLoop_get? bp vs ss tp so k 1 _ h, stateAt_eq_stepN]
  have h1k : 1 + k = k + 1 := by omega
  rw [h1k]

/-! ### Recurrences of the unrounded traces -/

lemma buyPriceAt_zero : buyPriceAt bp bo ps vs ss 0 = bp := rfl

lemma orderSizeAt_zero : orderSizeAt bp bo ps vs ss 0 = bo := rfl

lemma spentAt_zero : spentAt bp bo ps vs ss 0 = bo := rfl

lemma volumeAt_zero : volumeAt bp bo ps vs ss 0 = bo / bp := rfl

lemma deviationAt_zero : deviationAt bp bo ps vs ss 0 = ps := rfl

lemma buyPriceAt_succ (n : ℕ) : buyPriceAt bp bo ps vs ss (n + 1) =
    buyPriceAt bp bo ps vs ss n * (1 - deviationAt bp bo ps vs ss n / 100) := rfl

lemma orderSizeAt_succ (n : ℕ) : orderSizeAt bp bo ps vs ss (n + 1) =
    orderSizeAt bp bo ps vs ss n * vs := rfl

lemma spentAt_succ (n : ℕ) : spentAt bp bo ps vs ss (n + 1) =
    spentAt bp bo ps vs ss n + orderSizeAt bp bo ps vs ss (n + 1) := rfl

lemma volumeAt_succ (n : ℕ) : volumeAt bp bo ps vs ss (n + 1) =
    volumeAt bp bo ps vs ss n +
      orderSizeAt bp bo ps vs ss (n + 1) / buyPriceAt bp bo ps vs ss (n + 1) := rfl

lemma deviationAt_succ (n : ℕ) : deviationAt bp bo ps vs ss (n + 1) =
    deviationAt bp bo ps vs ss n * ss := rfl

lemma deviationAt_eq_pow (n : ℕ) : deviationAt bp bo ps vs ss n = ps * ss ^ n := by
  induction n with
  | zero => simp [deviationAt_zero]
  | succ n ih => rw [deviationAt_succ, ih, pow_succ, mul_assoc]

end

/-! ### Positivity and monotonicity of the unrounded buy prices -/

lemma buyPriceAt_pos_of (bp bo ps vs ss : ℚ) (so : ℕ) (hbp : 0 < bp) (hps : 0 < ps)
    (hss : 0 < ss) (hdev : ∀ i, i < so → ps * ss ^ i < 100) :
    ∀ n, n ≤ so → 0 < buyPriceAt bp bo ps vs ss n := by
  intro n
  induction n with
  | zero => intro _; simpa [buyPriceAt_zero] using hbp
  | succ n ih =>
    intro hn
    have hn' : n ≤ so := Nat.le_of_succ_le hn
    have h100 : ps * ss ^ n < 100 := hdev n (by omega)
    rw [buyPriceAt_succ, deviationAt_eq_pow]
    apply mul_pos (ih hn')
    linarith

lemma buyPriceAt_lt_of (bp bo ps vs ss : ℚ) (so : ℕ) (hbp : 0 < bp) (hps : 0 < ps)
    (hss : 0 < ss) (hdev : ∀ i, i < so → ps * ss ^ i < 100) :
    ∀ k, k < so → buyPriceAt bp bo ps vs ss (k + 1) < buyPriceAt bp bo ps vs ss k := by
  intro k hk
  have hb : 0 < buyPriceAt bp bo ps vs ss k :=
    buyPriceAt_pos_of bp bo ps vs ss so hbp hps hss hdev k (le_of_lt hk)
  have hpos : 0 < ps * ss ^ k := mul_pos hps (pow_pos hss k)
  rw [buyPriceAt_succ, deviationAt_eq_pow]
  have hlt : 1 - ps * ss ^ k / 100 < 1 := by linarith
  have := mul_lt_mul_of_pos_left hlt hb
  simpa using this

lemma buyPriceAt_anti_of (bp bo ps vs ss : ℚ) (so : ℕ) (hbp : 0 < bp) (hps : 0 < ps)
    (hss : 0 < ss) (hdev : ∀ i, i < so → ps * ss ^ i < 100) :
    ∀ k j, j ≤ k → k ≤ so → buyPriceAt bp bo ps vs ss k ≤ buyPriceAt bp bo ps vs ss j := by
  intro k
  induction k with
  | zero =>
    intro j hj _
    have : j = 0 := Nat.le_zero.mp hj
    subst this
    exact le_refl _
  | succ k ih =>
    intro j hj hk
    rcases Nat.lt_or_ge j (k + 1) with h | h
    · have h1 : buyPriceAt bp bo ps vs ss (k + 1) < buyPriceAt bp bo ps vs ss k :=
        buyPriceAt_lt_of bp bo ps vs ss so hbp hps hss hdev k (by omega)
      exact le_trans (le_of_lt h1) (ih j (by omega) (by omega))
    · have : j = k + 1 := by omega
      subst this
      exact le_refl _

/-! ### Running sums and average-price invariants -/

lemma spentAt_eq_sum (bp bo ps vs ss : ℚ) (k : ℕ) :
    spentAt bp bo ps vs ss k = ∑ i in Finset.range (k + 1), orderSizeAt bp bo ps vs ss i := by
  induction k with
  | zero => simp [spentAt_zero, orderSizeAt_zero]
  | succ k ih =>
    rw [spentAt_succ, ih]
    exact (Finset.sum_range_succ _ (k + 1)).symm

lemma volumeAt_eq_sum (bp bo ps vs ss : ℚ) (k : ℕ) :
    volumeAt bp bo ps vs ss k =
      ∑ i in Finset.range (k + 1),
        orderSizeAt bp bo ps vs ss i / buyPriceAt bp bo ps vs ss i := by
  induction k with
  | zero => simp [volumeAt_zero, orderSizeAt_zero, buyPriceAt_zero]
  | succ k ih =>
    rw [volumeAt_succ, ih]
    exact (Finset.sum_range_succ _ (k + 1)).symm

lemma orderSizeAt_pos (bp bo ps vs ss : ℚ) (hbo : 0 < bo) (hvs : 0 < vs) :
    ∀ n, 0 < orderSizeAt bp bo ps vs ss n := by
  intro n
  induction n with
  | zero => simpa [orderSizeAt_zero] using hbo
  | succ n ih => rw [orderSizeAt_succ]; exact mul_pos ih hvs

lemma avg_invariants (bp bo ps vs ss : ℚ) (so : ℕ) (hbp : 0 < bp) (hbo : 0 < bo)
    (hps : 0 < ps) (hvs : 0 < vs) (hss : 0 < ss)
    (hdev : ∀ i, i < so → ps * ss ^ i < 100) :
    ∀ n, n ≤ so → 0 < volumeAt bp bo ps vs ss n ∧
      spentAt bp bo ps vs ss n ≤ bp * volumeAt bp bo ps vs ss n ∧
      buyPriceAt bp bo ps vs ss n * volumeAt bp bo ps vs ss n ≤ spentAt bp bo ps vs ss n := by
  intro n
  induction n with
  | zero =>
    intro _
    rw [volumeAt_zero, spentAt_zero, buyPriceAt_zero]
    have heq : bp * (bo / bp) = bo := by field_simp
    exact ⟨div_pos hbo hbp, le_of_eq heq.symm, le_of_eq heq⟩
  | succ n ih =>
    intro hn
    have hn' : n ≤ so := Nat.le_of_succ_le hn
    obtain ⟨hvol, hup, hlow⟩ := ih hn'
    have hb' : 0 < buyPriceAt bp bo ps vs ss (n + 1) :=
      buyPriceAt_pos_of bp bo ps vs ss so hbp hps hss hdev (n + 1) hn
    have hdec : buyPriceAt bp bo ps vs ss (n + 1) < buyPriceAt bp bo ps vs ss n :=
      buyPriceAt_lt_of bp bo ps vs ss so hbp hps hss hdev n (by omega)
    have hble : buyPriceAt bp bo ps vs ss (n + 1) ≤ bp := by
      have h0 : buyPriceAt bp bo ps vs ss n ≤ buyPriceAt bp bo ps vs ss 0 :=
        buyPriceAt_anti_of bp bo ps vs ss so hbp hps hss hdev n 0 (Nat.zero_le n) hn'
      rw [buyPriceAt_zero] at h0
      linarith
    have ho : 0 < orderSizeAt bp bo ps vs ss (n + 1) :=
      orderSizeAt_pos bp bo ps vs ss hbo hvs (n + 1)
    rw [volumeAt_succ, spentAt_succ]
    refine ⟨add_pos hvol (div_pos ho hb'), ?_, ?_⟩
    · have h1 : orderSizeAt bp bo ps vs ss (n + 1) ≤
          bp * (orderSizeAt bp bo ps vs ss (n + 1) / buyPriceAt bp bo ps vs ss (n + 1)) := by
        rw [← mul_div_assoc, le_div_iff₀ hb']
        nlinarith
      calc spentAt bp bo ps vs ss n + orderSizeAt bp bo ps vs ss (n + 1)
          ≤ bp * volumeAt bp bo ps vs ss n +
            bp * (orderSizeAt bp bo ps vs ss (n + 1) / buyPriceAt bp bo ps vs ss (n + 1)) :=
            add_le_add hup h1
        _ = bp * (volumeAt bp bo ps vs ss n +
            orderSizeAt bp bo ps vs ss (n + 1) / buyPriceAt bp bo ps vs ss (n + 1)) := by ring
    · have h2 : buyPriceAt bp bo ps vs ss (n + 1) *
          (orderSizeAt bp bo ps vs ss (n + 1) / buyPriceAt bp bo ps vs ss (n + 1)) =
          orderSizeAt bp bo ps vs ss (n + 1) := by
        field_simp
      have h3 : buyPriceAt bp bo ps vs ss (n + 1) * volumeAt bp bo ps vs ss n ≤
          spentAt bp bo ps vs ss n := by
        have := mul_le_mul_of_nonneg_right (le_of_lt hdec) (le_of_lt hvol)
        linarith
      calc buyPriceAt bp bo ps vs ss (n + 1) * (volumeAt bp bo ps vs ss n +
            orderSizeAt bp bo ps vs ss (n + 1) / buyPriceAt bp bo ps vs ss (n + 1))
          = buyPriceAt bp bo ps vs ss (n + 1) * volumeAt bp bo ps vs ss n +
            buyPriceAt bp bo ps vs ss (n + 1) *
              (orderSizeAt bp bo ps vs ss (n + 1) / buyPriceAt bp bo ps vs ss (n + 1)) := by
            ring
        _ = buyPriceAt bp bo ps vs ss (n + 1) * volumeAt bp bo ps vs ss n +
            orderSizeAt bp bo ps vs ss (n + 1) := by rw [h2]
        _ ≤ spentAt bp bo ps vs ss n + orderSizeAt bp bo ps vs ss (n + 1) :=
            add_le_add h3 (le_refl _)

/-! ### Claim theorems -/

/-- C6: with `safety_orders = 0` the grid is exactly the base record, whose
fields are the two-decimal roundings of: buy price `base_price`, order size
`base_order`, total invested `base_order`, average price `base_price`,
take-profit `base_price * (1 + tp_pct/100)`, and drop 0. -/
theorem grid_zero_safety_orders (bp bo ps vs ss tp : ℚ) :
    calculate_strategy bp bo 0 ps vs ss tp =
      [{ step := ("Base"), buyPrice := round2 bp, orderSize := round2 bo,
         totalInvestment := round2 bo, avgPrice := round2 bp,
         tpTarget := round2 (bp * (1 + tp / 100)), dropPct := 0 }] := rfl

/-- C2 counterexample: at `base_price = 100`, `base_order = 100`,
`safety_orders = 1`, `price_step = 1/1000` (a valid parameter set with a
positive price step), the rounded "Buy Price ($)" fields of records 0 and 1
of the returned grid are both 100, so the buy prices of consecutive records
are not strictly decreasing. -/
theorem grid_buy_prices_not_strictly_decreasing :
    (0 : ℚ) < 100 ∧ (0 : ℚ) < 1/1000 ∧
    ((calculate_strategy 100 100 1 (1/1000) 1 1 0).get? 0).map StageRecord.buyPrice =
      some (100) ∧
    ((calculate_strategy 100 100 1 (1/1000) 1 1 0).get? 1).map StageRecord.buyPrice =
      some (100) := by
  refine ⟨by norm_num, by norm_num, ?_, ?_⟩
  · rw [calculate_strategy_get?_zero]
    simp only [Option.map, baseRecord]
    congr 1
    exact round2_eq_low _ _ 10000 (by norm_num) (by norm_num) (by norm_num)
  · rw [calculate_strategy_get?_succ 100 100 (1/1000) 1 1 0 1 0 (by decide)]
    have hs : stateAt 100 100 (1/1000) 1 1 1 =
        { cumulative_spent := 200, cumulative_volume := 199999/99999,
          last_price := 99999/1000, last_order_size := 100,
          current_deviation := 1/1000 } := by
      simp only [stateAt, stepState, initState, LoopState.mk.injEq]
      norm_num
    rw [hs]
    simp only [Option.map, soRecord]
    congr 1
    exact round2_eq_high _ _ 9999 (by norm_num) (by norm_num) (by norm_num) (by norm_num)

/-- C2 (amended): with positive base price, base order, price step and step
scale, and every compounded deviation `price_step * step_scale ^ i` staying
below 100 for `i < safety_orders`, the unrounded buy prices computed at
consecutive iterations of `calculate_strategy` are strictly decreasing
(the displayed fields are their two-decimal roundings). -/
theorem buy_prices_strictly_decreasing_unrounded (bp bo ps vs ss : ℚ) (so : ℕ)
    (hbp : 0 < bp) (hbo : 0 < bo) (hps : 0 < ps) (hss : 0 < ss)
    (hdev : ∀ i, i < so → ps * ss ^ i < 100) :
    ∀ k, k < so → buyPriceAt bp bo ps vs ss (k + 1) < buyPriceAt bp bo ps vs ss k :=
  buyPriceAt_lt_of bp bo ps vs ss so hbp hps hss hdev

/-- C2 witness: at the concrete scenario-A parameters the unrounded buy
price of stage 2 is below that of stage 1. -/
theorem buy_prices_strictly_decreasing_unrounded_witness :
    buyPriceAt 50000 100 2 (3/2) (11/10) 2 < buyPriceAt 50000 100 2 (3/2) (11/10) 1 :=
  buy_prices_strictly_decreasing_unrounded 50000 100 2 (3/2) (11/10) 2
    (by norm_num) (by norm_num) (by norm_num) (by norm_num)
    (by intro i hi; interval_cases i <;> norm_num) 1 (by decide)

/-- C3 counterexample: at `base_price = 100`, `base_order = 251/250 = 1.004`,
`safety_orders = 1`, `volume_scale = 1` (a valid parameter set), the rounded
"Order Size ($)" fields of records 0 and 1 are both 1.00, while the rounded
"Total Investment ($)" field of record 1 is 2.01, not 1.00 + 1.00: the
displayed total is the rounding of the unrounded sum, not the sum of the
displayed order sizes. -/
theorem total_investment_field_ne_sum_of_fields :
    (0 : ℚ) < 100 ∧ (0 : ℚ) < 251/250 ∧
    ((calculate_strategy 100 (251/250) 1 2 1 1 0).get? 0).map StageRecord.orderSize =
      some (1) ∧
    ((calculate_strategy 100 (251/250) 1 2 1 1 0).get? 1).map StageRecord.orderSize =
      some (1) ∧
    ((calculate_strategy 100 (251/250) 1 2 1 1 0).get? 1).map StageRecord.totalInvestment =
      some (201/100) ∧
    (201/100 : ℚ) ≠ 1 + 1 := by
  have hs : stateAt 100 (251/250) 2 1 1 1 =
      { cumulative_spent := 251/125, cumulative_volume := 24849/1225000,
        last_price := 98, last_order_size := 251/250, current_deviation := 2 } := by
    simp only [stateAt, stepState, initState, LoopState.mk.injEq]
    norm_num
  refine ⟨by norm_num, by norm_num, ?_, ?_, ?_, by norm_num⟩
  · rw [calculate_strategy_get?_zero]
    simp only [Option.map, baseRecord]
    congr 1
    exact round2_eq_low _ _ 100 (by norm_num) (by norm_num) (by norm_num)
  · rw [calculate_strategy_get?_succ 100 (251/250) 2 1 1 0 1 0 (by decide), hs]
    simp only [Option.map, soRecord]
    congr 1
    exact round2_eq_low _ _ 100 (by norm_num) (by norm_num) (by norm_num)
  · rw [calculate_strategy_get?_succ 100 (251/250) 2 1 1 0 1 0 (by decide), hs]
    simp only [Option.map, soRecord]
    congr 1
    exact round2_eq_high _ _ 200 (by norm_num) (by norm_num) (by norm_num) (by norm_num)

/-- C3 (amended): for every parameter set and record index `k`, the
unrounded cumulative spend at record `k` equals the sum of the unrounded
order sizes of records 0 through `k`, and the displayed
"Total Investment ($)" and "Order Size ($)" fields are the two-decimal
roundings of the corresponding unrounded quantities. -/
theorem total_investment_eq_sum_unrounded (bp bo ps vs ss tp : ℚ) (so : ℕ) :
    ∀ k, k ≤ so →
      spentAt bp bo ps vs ss k = (∑ i in Finset.range (k + 1), orderSizeAt bp bo ps vs ss i) ∧
      ((calculate_strategy bp bo so ps vs ss tp).get? k).map StageRecord.totalInvestment =
        some (round2 (spentAt bp bo ps vs ss k)) ∧
      ((calculate_strategy bp bo so ps vs ss tp).get? k).map StageRecord.orderSize =
        some (round2 (orderSizeAt bp bo ps vs ss k)) := by
  intro k hk
  refine ⟨spentAt_eq_sum bp bo ps vs ss k, ?_, ?_⟩
  · cases k with
    | zero => rw [calculate_strategy_get?_zero]; rfl
    | succ k => rw [calculate_strategy_get?_succ bp bo ps vs ss tp so k (by omega)]; rfl
  · cases k with
    | zero => rw [calculate_strategy_get?_zero]; rfl
    | succ k => rw [calculate_strategy_get?_succ bp bo ps vs ss tp so k (by omega)]; rfl

/-- C3 witness at the concrete scenario-A parameters, record 2. -/
theorem total_investment_eq_sum_unrounded_witness :
    spentAt 50000 100 2 (3/2) (11/10) 2 =
      ∑ i in Finset.range 3, orderSizeAt 50000 100 2 (3/2) (11/10) i :=
  (total_investment_eq_sum_unrounded 50000 100 2 (3/2) (11/10) (3/2) 2 2 (by decide)).1

/-- C4: for every valid parameter set (positive base price and base order)
and record index `k`, the unrounded average price at record `k` equals the
running sum of unrounded order sizes divided by the running sum of unrounded
bought volumes (order size over unrounded buy price), and the displayed
"Avg Price ($)" field is the two-decimal rounding of that unrounded value:
rounding is applied only to the displayed output. -/
theorem avg_price_from_unrounded_sums (bp bo ps vs ss tp : ℚ) (so : ℕ)
    (hbp : 0 < bp) (hbo : 0 < bo) :
    ∀ k, k ≤ so →
      avgPriceAt bp bo ps vs ss k =
        (∑ i in Finset.range (k + 1), orderSizeAt bp bo ps vs ss i) /
        (∑ i in Finset.range (k + 1),
          orderSizeAt bp bo ps vs ss i / buyPriceAt bp bo ps vs ss i) ∧
      ((calculate_strategy bp bo so ps vs ss tp).get? k).map StageRecord.avgPrice =
        some (round2 (avgPriceAt bp bo ps vs ss k)) := by
  intro k hk
  constructor
  · rw [avgPriceAt, spentAt_eq_sum, volumeAt_eq_sum]
  · cases k with
    | zero =>
      rw [calculate_strategy_get?_zero]
      have havg : avgPriceAt bp bo ps vs ss 0 = bp := by
        rw [avgPriceAt, spentAt_zero, volumeAt_zero]
        field_simp
      simp only [Option.map, baseRecord, havg]
    | succ k =>
      rw [calculate_strategy_get?_succ bp bo ps vs ss tp so k (by omega)]
      rfl

/-- C4 witness at the concrete scenario-A parameters, record 1. -/
theorem avg_price_from_unrounded_sums_witness :
    ((calculate_strategy 50000 100 2 2 (3/2) (11/10) (3/2)).get? 1).map StageRecord.avgPrice =
      some (round2 (avgPriceAt 50000 100 2 (3/2) (11/10) 1)) :=
  (avg_price_from_unrounded_sums 50000 100 2 (3/2) (11/10) (3/2) 2
    (by norm_num) (by norm_num) 1 (by decide)).2

/-- C5 counterexample: at `base_price = 100`, `base_order = 100`,
`safety_orders = 1`, `price_step = 150` (positive `price_step`; spec §3 only
requires `price_step` non-negative), record 1 has buy price -50 and average
price -200, which is strictly below the lowest buy price of the stages
filled so far, so the claimed lower bound fails. -/
theorem avg_price_below_lowest_buy_degenerate :
    (0 : ℚ) < 100 ∧ (0 : ℚ) < 150 ∧
    ((calculate_strategy 100 100 1 150 1 1 0).get? 1).map StageRecord.buyPrice =
      some (-50) ∧
    ((calculate_strategy 100 100 1 150 1 1 0).get? 1).map StageRecord.avgPrice =
      some (-200) ∧
    ((-200 : ℚ) < -50) := by
  have hs : stateAt 100 100 150 1 1 1 =
      { cumulative_spent := 200, cumulative_volume := -1,
        last_price := -50, last_order_size := 100, current_deviation := 150 } := by
    simp only [stateAt, stepState, initState, LoopState.mk.injEq]
    norm_num
  refine ⟨by norm_num, by norm_num, ?_, ?_, by norm_num⟩
  · rw [calculate_strategy_get?_succ 100 100 150 1 1 0 1 0 (by decide), hs]
    simp only [Option.map, soRecord]
    congr 1
    exact round2_eq_low _ _ (-5000) (by norm_num) (by norm_num) (by norm_num)
  · rw [calculate_strategy_get?_succ 100 100 150 1 1 0 1 0 (by decide), hs]
    simp only [Option.map, soRecord]
    congr 1
    exact round2_eq_low _ _ (-20000) (by norm_num) (by norm_num) (by norm_num)

/-- C5 (amended): with positive base price, base order, price step, volume
scale and step scale, and every compounded deviation below 100, the
unrounded average price at every safety-order stage `k ≥ 1` is at most the
base price and at least the stage-`k` buy price, which is the lowest buy
price among the stages filled so far. -/
theorem avg_price_between_lowest_buy_and_base (bp bo ps vs ss : ℚ) (so : ℕ)
    (hbp : 0 < bp) (hbo : 0 < bo) (hps : 0 < ps) (hvs : 0 < vs) (hss : 0 < ss)
    (hdev : ∀ i, i < so → ps * ss ^ i < 100) :
    ∀ k, 1 ≤ k → k ≤ so →
      (∀ j, j ≤ k → buyPriceAt bp bo ps vs ss k ≤ buyPriceAt bp bo ps vs ss j) ∧
      buyPriceAt bp bo ps vs ss k ≤ avgPriceAt bp bo ps vs ss k ∧
      avgPriceAt bp bo ps vs ss k ≤ bp := by
  intro k _ hkso
  obtain ⟨hvol, hup, hlow⟩ := avg_invariants bp bo ps vs ss so hbp hbo hps hvs hss hdev k hkso
  refine ⟨fun j hj => buyPriceAt_anti_of bp bo ps vs ss so hbp hps hss hdev k j hj hkso,
    ?_, ?_⟩
  · rw [avgPriceAt, le_div_iff₀ hvol]
    exact hlow
  · rw [avgPriceAt, div_le_iff₀ hvol]
    linarith

/-- C5 witness at the concrete scenario-A parameters, stage 2. -/
theorem avg_price_between_lowest_buy_and_base_witness :
    buyPriceAt 50000 100 2 (3/2) (11/10) 2 ≤ avgPriceAt 50000 100 2 (3/2) (11/10) 2 ∧
    avgPriceAt 50000 100 2 (3/2) (11/10) 2 ≤ 50000 := by
  have h := avg_price_between_lowest_buy_and_base 50000 100 2 (3/2) (11/10) 2
    (by norm_num) (by norm_num) (by norm_num) (by norm_num) (by norm_num)
    (by intro i hi; interval_cases i <;> norm_num) 2 (by decide) (by decide)
  exact ⟨h.2.1, h.2.2⟩

lemma soLoopE_ok (bp vs ss tp : ℚ) :
    ∀ (n i : ℕ) (s : LoopState),
      (∀ k, k < n → (stepN vs ss (k + 1) s).last_price ≠ 0 ∧
        (stepN vs ss (k + 1) s).cumulative_volume ≠ 0) →
      soLoopE bp vs ss tp n i s = Except.ok (soLoop bp vs ss tp n i s) := by
  intro n
  induction n with
  | zero => intro i s _; rfl
  | succ n ih =>
    intro i s h
    have h0 := h 0 (Nat.succ_pos n)
    have hbuy : ¬ (s.last_price * (1 - s.current_deviation / 100) = 0) := h0.1
    have hvol : ¬ ((stepState vs ss s).cumulative_volume = 0) := h0.2
    have hrec : soLoopE bp vs ss tp n (i + 1) (stepState vs ss s) =
        Except.ok (soLoop bp vs ss tp n (i + 1) (stepState vs ss s)) := by
      apply ih
      intro k hk
      rw [stepN_apply_stepState]
      exact h (k + 1) (Nat.succ_lt_succ hk)
    simp only [soLoopE, soLoop]
    rw [if_neg hbuy, if_neg hvol, hrec]

/-- When `base_price` is nonzero and no loop divisor is exactly zero, the
checked evaluation raises no error and returns the full grid. -/
lemma calcE_eq_ok (bp bo ps vs ss tp : ℚ) (so : ℕ) (hbp : bp ≠ 0)
    (hdiv : ∀ k, k < so → buyPriceAt bp bo ps vs ss (k + 1) ≠ 0 ∧
      volumeAt bp bo ps vs ss (k + 1) ≠ 0) :
    calcE bp bo so ps vs ss tp = Except.ok (calculate_strategy bp bo so ps vs ss tp) := by
  rw [calcE, if_neg hbp]
  have hall : ∀ k, k < so →
      (stepN vs ss (k + 1) (initState bp bo ps)).last_price ≠ 0 ∧
      (stepN vs ss (k + 1) (initState bp bo ps)).cumulative_volume ≠ 0 := by
    intro k hk
    have hd := hdiv k hk
    rw [buyPriceAt, volumeAt, stateAt_eq_stepN] at hd
    exact hd
  rw [soLoopE_ok bp vs ss tp so 1 (initState bp bo ps) hall]
  rfl

/-- C1 counterexample: at `base_price = 0` (an input of the claim's
universal scope, with `safety_orders = 2` a non-negative integer),
src/dca.py line 21 divides by zero: the function raises
`ZeroDivisionError` and returns no grid at all, so `calculate_strategy`
does not return a `safety_orders + 1`-record grid for every input. -/
theorem no_grid_at_zero_base_price :
    calcE 0 50 2 1 1 1 0 = Except.error ("ZeroDivisionError") := by
  rw [calcE, if_pos rfl]

/-- C1 (amended): for every input on which the program actually returns
(`base_price` nonzero and no loop divisor exactly zero), the returned grid
has exactly `safety_orders + 1` records, the first labelled "Base" and
record `k + 1` labelled "SO #(k+1)" for each `k < safety_orders`, in
increasing order of index. -/
theorem grid_length_and_labels_when_no_error (bp bo ps vs ss tp : ℚ) (so : ℕ)
    (hbp : bp ≠ 0)
    (hdiv : ∀ k, k < so → buyPriceAt bp bo ps vs ss (k + 1) ≠ 0 ∧
      volumeAt bp bo ps vs ss (k + 1) ≠ 0) :
    calcE bp bo so ps vs ss tp = Except.ok (calculate_strategy bp bo so ps vs ss tp) ∧
    (calculate_strategy bp bo so ps vs ss tp).length = so + 1 ∧
    ((calculate_strategy bp bo so ps vs ss tp).get? 0).map StageRecord.step = some ("Base") ∧
    ∀ k, k < so →
      ((calculate_strategy bp bo so ps vs ss tp).get? (k + 1)).map StageRecord.step =
        some (("SO #") ++ toString (k + 1)) := by
  refine ⟨calcE_eq_ok bp bo ps vs ss tp so hbp hdiv,
    calculate_strategy_length bp bo ps vs ss tp so, rfl, ?_⟩
  intro k hk
  rw [calculate_strategy_get?_succ bp bo ps vs ss tp so k hk]
  rfl

/-- C1 witness: at `base_price = 100`, `base_order = 10`, one safety order
with `price_step = 10` and `volume_scale = 2`, the program returns a grid
of two records whose second record is labelled "SO #1". -/
theorem grid_length_and_labels_when_no_error_witness :
    calcE 100 10 1 10 2 1 0 = Except.ok (calculate_strategy 100 10 1 10 2 1 0) ∧
    (calculate_strategy 100 10 1 10 2 1 0).length = 2 ∧
    ((calculate_strategy 100 10 1 10 2 1 0).get? 1).map StageRecord.step =
      some ("SO #1") := by
  have h := grid_length_and_labels_when_no_error 100 10 10 2 1 0 1 (by norm_num)
    (by
      intro k hk
      interval_cases k <;>
        constructor <;>
          norm_num [buyPriceAt, volumeAt, stateAt, stepState, initState])
  exact ⟨h.1, h.2.1, h.2.2.2 0 (by decide)⟩

/-- C7 (amended): for every parameter set in which `base_price` is nonzero
and no loop divisor is exactly zero (every unrounded buy price and every
cumulative volume at stages 1..safety_orders is nonzero), the computation
raises no error, returns the full grid of `calculate_strategy`, and that
grid has exactly `safety_orders + 1` records; degenerate values (deviation
strictly above 100%, negative buy prices) are propagated into the records
rather than rejected.  The unamended claim fails when a divisor is exactly
zero, e.g. when the deviation reaches exactly 100%. -/
theorem calcE_completes_without_error (bp bo ps vs ss tp : ℚ) (so : ℕ)
    (hbp : bp ≠ 0)
    (hdiv : ∀ k, k < so → buyPriceAt bp bo ps vs ss (k + 1) ≠ 0 ∧
      volumeAt bp bo ps vs ss (k + 1) ≠ 0) :
    calcE bp bo so ps vs ss tp = Except.ok (calculate_strategy bp bo so ps vs ss tp) ∧
    (calculate_strategy bp bo so ps vs ss tp).length = so + 1 :=
  ⟨calcE_eq_ok bp bo ps vs ss tp so hbp hdiv,
    calculate_strategy_length bp bo ps vs ss tp so⟩

/-- C7 witness at the concrete scenario-A parameters. -/
theorem calcE_completes_without_error_witness :
    calcE 50000 100 2 2 (3/2) (11/10) (3/2) =
      Except.ok (calculate_strategy 50000 100 2 2 (3/2) (11/10) (3/2)) :=
  (calcE_completes_without_error 50000 100 2 (3/2) (11/10) (3/2) 2 (by norm_num)
    (by
      intro k hk
      interval_cases k <;>
        constructor <;>
          norm_num [buyPriceAt, volumeAt, stateAt, stepState, initState])).1

/-- C7 counterexample: at `base_price = 100`, `price_step = 100`,
`safety_orders = 1` the compounded deviation reaches exactly 100%, the buy
price is exactly 0, and the volume update divides by zero: the function
raises `ZeroDivisionError` instead of completing and returning a grid. -/
theorem calcE_error_at_exact_full_deviation :
    calcE 100 100 1 100 1 1 0 = Except.error ("ZeroDivisionError") := by
  rw [calcE, if_neg (by norm_num)]
  simp only [soLoopE, initState]
  rw [if_pos (by norm_num)]

/-- C10: `calculate_strategy` raises an unhandled division-by-zero error
instead of returning a grid when `base_price = 0` (src/dca.py line 21) and
when the compounded deviation equals exactly 100% at some stage so that the
computed buy price is exactly 0 and the volume update divides by it
(src/dca.py lines 39 and 43). -/
theorem calcE_division_by_zero_inputs :
    calcE 0 100 1 2 1 1 0 = Except.error ("ZeroDivisionError") ∧
    calcE 200 50 1 100 1 1 0 = Except.error ("ZeroDivisionError") := by
  constructor
  · rw [calcE, if_pos rfl]
  · rw [calcE, if_neg (by norm_num)]
    simp only [soLoopE, initState]
    rw [if_pos (by norm_num)]

/-- C8 counterexample: at the scenario-A input the displayed "Avg Price ($)"
of record 1 is exactly 49395.16, which differs from the claimed value of
approximately 49400.00 by more than 4, far beyond two-decimal display
rounding (the claimed 49400 is the spend-weighted arithmetic mean; the code
computes the volume-weighted harmonic mean 250 / cumulative_volume). -/
theorem scenario_a_record1_avg_not_49400 :
    ((calculate_strategy 50000 100 2 2 (3/2) (11/10) (3/2)).get? 1).map StageRecord.avgPrice =
      some (1234879/25) ∧
    (1234879/25 : ℚ) ≠ 49400 ∧ (4 : ℚ) < 49400 - 1234879/25 := by
  refine ⟨?_, by norm_num, by norm_num⟩
  rw [calculate_strategy_get?_succ 50000 100 2 (3/2) (11/10) (3/2) 2 0 (by decide)]
  have hs : stateAt 50000 100 2 (3/2) (11/10) 1 =
      { cumulative_spent := 250, cumulative_volume := 31/6125, last_price := 49000,
        last_order_size := 150, current_deviation := 11/5 } := by
    simp only [stateAt, stepState, initState, LoopState.mk.injEq]
    norm_num
  rw [hs]
  simp only [Option.map, soRecord]
  congr 1
  exact round2_eq_low _ _ 4939516 (by norm_num) (by norm_num) (by norm_num)

/-- C8 (amended): at `base_price = 50000`, `base_order = 100`,
`safety_orders = 2`, `price_step = 2`, `volume_scale = 1.5`,
`step_scale = 1.1`, `tp_pct = 1.5`: record 0 has buy price 50000.00, order
size 100.00, average price 50000.00, take-profit 50750.00 and drop 0.0;
record 1 has buy price 49000.00, order size 150.00, total invested 250.00,
average price 49395.16 (not ≈49400.00) and drop 2.0; the deviation after
stage 1 is 2.2%, and record 2 has buy price 47922.00, order size 225.00 and
total invested 475.00. -/
theorem scenario_a_grid_values :
    ((calculate_strategy 50000 100 2 2 (3/2) (11/10) (3/2)).get? 0 =
      some { step := ("Base"), buyPrice := 50000, orderSize := 100,
             totalInvestment := 100, avgPrice := 50000, tpTarget := 50750,
             dropPct := 0 }) ∧
    (((calculate_strategy 50000 100 2 2 (3/2) (11/10) (3/2)).get? 1).map
        StageRecord.buyPrice = some (49000)) ∧
    (((calculate_strategy 50000 100 2 2 (3/2) (11/10) (3/2)).get? 1).map
        StageRecord.orderSize = some (150)) ∧
    (((calculate_strategy 50000 100 2 2 (3/2) (11/10) (3/2)).get? 1).map
        StageRecord.totalInvestment = some (250)) ∧
    (((calculate_strategy 50000 100 2 2 (3/2) (11/10) (3/2)).get? 1).map
        StageRecord.avgPrice = some (4939516/100)) ∧
    (((calculate_strategy 50000 100 2 2 (3/2) (11/10) (3/2)).get? 1).map
        StageRecord.dropPct = some (2)) ∧
    (deviationAt 50000 100 2 (3/2) (11/10) 1 = 11/5) ∧
    (((calculate_strategy 50000 100 2 2 (3/2) (11/10) (3/2)).get? 2).map
        StageRecord.buyPrice = some (47922)) ∧
    (((calculate_strategy 50000 100 2 2 (3/2) (11/10) (3/2)).get? 2).map
        StageRecord.orderSize = some (225)) ∧
    (((calculate_strategy 50000 100 2 2 (3/2) (11/10) (3/2)).get? 2).map
        StageRecord.totalInvestment = some (475)) := by
  have hs1 : stateAt 50000 100 2 (3/2) (11/10) 1 =
      { cumulative_spent := 250, cumulative_volume := 31/6125, last_price := 49000,
        last_order_size := 150, current_deviation := 11/5 } := by
    simp only [stateAt, stepState, initState, LoopState.mk.injEq]
    norm_num
  have hs2 : stateAt 50000 100 2 (3/2) (11/10) 2 =
      { cumulative_spent := 475, cumulative_volume := 2783/285250, last_price := 47922,
        last_order_size := 225, current_deviation := 121/50 } := by
    have : stateAt 50000 100 2 (3/2) (11/10) 2 =
        stepState (3/2) (11/10) (stateAt 50000 100 2 (3/2) (11/10) 1) := rfl
    rw [this, hs1]
    simp only [stepState, LoopState.mk.injEq]
    norm_num
  refine ⟨?_, ?_, ?_, ?_, ?_, ?_, ?_, ?_, ?_, ?_⟩
  · rw [calculate_strategy_get?_zero]
    simp only [baseRecord, Option.some.injEq, StageRecord.mk.injEq]
    refine ⟨trivial, ?_, ?_, ?_, ?_, ?_, trivial⟩
    · exact round2_eq_low _ _ 5000000 (by norm_num) (by norm_num) (by norm_num)
    · exact round2_eq_low _ _ 10000 (by norm_num) (by norm_num) (by norm_num)
    · exact round2_eq_low _ _ 10000 (by norm_num) (by norm_num) (by norm_num)
    · exact round2_eq_low _ _ 5000000 (by norm_num) (by norm_num) (by norm_num)
    · exact round2_eq_low _ _ 5075000 (by norm_num) (by norm_num) (by norm_num)
  · rw [calculate_strategy_get?_succ 50000 100 2 (3/2) (11/10) (3/2) 2 0 (by decide), hs1]
    simp only [Option.map, soRecord]
    congr 1
    exact round2_eq_low _ _ 4900000 (by norm_num) (by norm_num) (by norm_num)
  · rw [calculate_strategy_get?_succ 50000 100 2 (3/2) (11/10) (3/2) 2 0 (by decide), hs1]
    simp only [Option.map, soRecord]
    congr 1
    exact round2_eq_low _ _ 15000 (by norm_num) (by norm_num) (by norm_num)
  · rw [calculate_strategy_get?_succ 50000 100 2 (3/2) (11/10) (3/2) 2 0 (by decide), hs1]
    simp only [Option.map, soRecord]
    congr 1
    exact round2_eq_low _ _ 25000 (by norm_num) (by norm_num) (by norm_num)
  · rw [calculate_strategy_get?_succ 50000 100 2 (3/2) (11/10) (3/2) 2 0 (by decide), hs1]
    simp only [Option.map, soRecord]
    congr 1
    exact round2_eq_low _ _ 4939516 (by norm_num) (by norm_num) (by norm_num)
  · rw [calculate_strategy_get?_succ 50000 100 2 (3/2) (11/10) (3/2) 2 0 (by decide), hs1]
    simp only [Option.map, soRecord]
    congr 1
    exact round2_eq_low _ _ 200 (by norm_num) (by norm_num) (by norm_num)
  · rw [deviationAt, hs1]
  · rw [calculate_strategy_get?_succ 50000 100 2 (3/2) (11/10) (3/2) 2 1 (by decide), hs2]
    simp only [Option.map, soRecord]
    congr 1
    exact round2_eq_low _ _ 4792200 (by norm_num) (by norm_num) (by norm_num)
  · rw [calculate_strategy_get?_succ 50000 100 2 (3/2) (11/10) (3/2) 2 1 (by decide), hs2]
    simp only [Option.map, soRecord]
    congr 1
    exact round2_eq_low _ _ 22500 (by norm_num) (by norm_num) (by norm_num)
  · rw [calculate_strategy_get?_succ 50000 100 2 (3/2) (11/10) (3/2) 2 1 (by decide), hs2]
    simp only [Option.map, soRecord]
    congr 1
    exact round2_eq_low _ _ 47500 (by norm_num) (by norm_num) (by norm_num)

/-! ### Strategy store -/

lemma lookup_filter_self (data : Store) (name : String) :
    (data.filter (fun p => p.1 != name)).lookup name = none := by
  induction data with
  | nil => rfl
  | cons hd tl ih =>
    by_cases h : hd.1 = name
    · simp [List.filter_cons, h, ih]
    · have hb : (name == hd.1) = false := by
        simp [beq_eq_false_iff_ne]
        exact Ne.symm h
      simp [List.filter_cons, List.lookup, h, ih, hb]

lemma lookup_filter_ne (data : Store) (name m : String) (h : m ≠ name) :
    (data.filter (fun p => p.1 != name)).lookup m = data.lookup m := by
  induction data with
  | nil => rfl
  | cons hd tl ih =>
    have hb : (m == name) = false := by
      simp [beq_eq_false_iff_ne]
      exact h
    by_cases hk : hd.1 = name
    · simp [List.filter_cons, List.lookup, hk, ih, hb]
    · by_cases hm : m = hd.1
      · simp [List.filter_cons, List.lookup, hk, hm]
      · simp [List.filter_cons, List.lookup, hk, hm, ih]

/-- C9: for every store state and every name, `delete_strategy` reports
`true` exactly when the name is bound; afterwards the name is no longer
bound, every other name keeps its binding, and when the name was not bound
the store is returned unchanged. -/
theorem delete_strategy_spec (data : Store) (name : String) :
    ((delete_strategy data name).2 = true ↔ (data.lookup name).isSome = true) ∧
    (delete_strategy data name).1.lookup name = none ∧
    (∀ m, m ≠ name → (delete_strategy data name).1.lookup m = data.lookup m) ∧
    ((data.lookup name).isSome = false → (delete_strategy data name).1 = data) := by
  unfold delete_strategy
  by_cases h : (data.lookup name).isSome = true
  · simp only [h, if_true]
    refine ⟨by simp, lookup_filter_self data name, ?_, ?_⟩
    · intro m hm
      exact lookup_filter_ne data name m hm
    · intro hf
      exact absurd hf (by simp)
  · have hnone : data.lookup name = none := by
      cases hx : data.lookup name with
      | none => rfl
      | some v => rw [hx] at h; simp at h
    simp only [hnone, if_neg]
    refine ⟨by simp, hnone, fun m _ => rfl, fun _ => rfl⟩

/-- C9 witness on a concrete two-entry store: deleting "alpha" reports
removal, unbinds "alpha" and preserves the binding of "beta". -/
theorem delete_strategy_spec_witness :
    (delete_strategy sampleStore ("alpha")).2 = true ∧
    (delete_strategy sampleStore ("alpha")).1.lookup ("alpha") = none ∧
    (delete_strategy sampleStore ("alpha")).1.lookup ("beta") = sampleStore.lookup ("beta") := by
  have h := delete_strategy_spec sampleStore ("alpha")
  exact ⟨h.1.mpr rfl, h.2.1, h.2.2.1 ("beta") (by decide)⟩
